import Mathlib

/-!
Verification of the PDR discovery/parse subsystem and the AWS helper layer
of the Cumulus repository, as a shallow embedding in Lean 4.

Code that is present under the repository tree (`packages/common/aws.js`,
`packages/api/lambdas/cw-sf-event-to-db-records.js`) is embedded directly
from the source.  Components of the subsystem whose implementation files are
not part of the tree (the protocol selector, the Discover Engine, the Record
Parser and the Parse/Ingest Orchestrator) are modelled from the specification
document; each such definition carries a doc comment starting with
`Modelled from the spec:`.
-/

namespace Cumulus

/-! ## Durable object store model

The durable object store is modelled as a list of (bucket, key) pairs that
are present, together with an explicit trace of the operations a piece of
code performs against it.  `headObject` either succeeds (object present) or
fails with a `notFound` error, mirroring the S3 `headObject` call used by
`aws.js`.
-/

/-- An error raised by the storage backend.  `code` mirrors the JS
error object's `.code` field tested by `s3ObjectExists`. -/
structure S3Error where
  code : String
  deriving DecidableEq, Repr

/-- A store operation, recorded in operation traces so that read-only-ness
and absence of uploads can be stated. -/
inductive StoreOp where
  | head (bucket key : String)
  | put (bucket key : String)
  | get (bucket key : String)
  deriving DecidableEq, Repr

/-- Store state: the set of (bucket, key) pairs that currently exist. -/
abbrev Store := List (String × String)

/-- `headObject bucket key` over a store state: resolves to `()` when the
object exists, rejects with a `NotFound` error otherwise (the behaviour of
S3 `headObject` that `aws.js` relies on). -/
def headObject (σ : Store) (bucket key : String) : Except S3Error Unit :=
  if (bucket, key) ∈ σ then .ok () else .error ⟨"NotFound"⟩

/-- Apply a trace of store operations to a store state.  Only `put` writes;
`head` and `get` are reads. -/
def applyOps (σ : Store) : List StoreOp → Store
  | [] => σ
  | .put b k :: rest => applyOps ((b, k) :: σ) rest
  | .head _ _ :: rest => applyOps σ rest
  | .get _ _ :: rest => applyOps σ rest

/-! ## `s3ObjectExists` (from `packages/common/aws.js`, lines 236-242)

```js
exports.s3ObjectExists = (params) =>
  exports.headObject(params.Bucket, params.Key)
    .then(() => true)
    .catch((e) => {
      if (e.code === 'NotFound') return false;
      throw e;
    });
```

The embedding takes the settled result of the inner `headObject` promise and
reproduces the `.then`/`.catch` chain. -/

def s3ObjectExists (head : Except S3Error Unit) : Except S3Error Bool :=
  match head with
  | .ok _ => .ok true
  | .error e => if e.code = "NotFound" then .ok false else .error e

/-- `s3ObjectExists` run against a store state, together with the trace of
store operations it performs.  The JS function issues exactly one
`headObject` call and nothing else. -/
def s3ObjectExistsOn (σ : Store) (bucket key : String) :
    Except S3Error Bool × List StoreOp :=
  (s3ObjectExists (headObject σ bucket key), [.head bucket key])

/-! ## Dedup Filter and Discover Engine

Modelled from the spec: the implementation of the Discover Engine is not in
the tree.  Spec 4.2/4.3/6: the dedup key is deterministic,
`{stack}/{folder}/{recordName}`; `isNew` checks existence at that key via
the durable store; `discover` lists the provider path, keeps names ending in
the record-file suffix, and keeps only records for which `isNew` is true.
Provider and collection identity do not enter the key.
-/

/-- A delivery record (PDR) as discovered on a provider. -/
structure DeliveryRecord where
  name : String
  path : String
  deriving DecidableEq, Repr

/-- Modelled from the spec: the deterministic dedup key
`{stack}/{folder}/{recordName}` (spec section 6). -/
def pdrKey (stack folder name : String) : String :=
  stack ++ "/" ++ folder ++ "/" ++ name

/-- Modelled from the spec: `isNew(record)` — the Dedup Filter.  A record is
new exactly when `s3ObjectExists` reports false for its dedup key.  The
store over which it runs only ever answers `ok` or `NotFound`, so the result
is a boolean. -/
def isNew (σ : Store) (bucket stack folder : String) (r : DeliveryRecord) : Bool :=
  match (s3ObjectExistsOn σ bucket (pdrKey stack folder r.name)).1 with
  | .ok b => !b
  | .error _ => false

/-- Modelled from the spec: the record-file suffix filter of the Discover
Engine (names ending in the record-file suffix `.PDR`). -/
def hasPdrSuffix (name : String) : Bool :=
  decide (name.toList.reverse.take 4 = ['R', 'D', 'P', '.'])

/-- Modelled from the spec: `discover()` — list all entries at the provider
path (`listing`), filter to names ending in the record-file suffix, then
keep only the records for which `isNew` is true.  `provider` and
`collection` are part of the selection input (spec section 6) but do not
enter the dedup key. -/
def discover (provider collection : String) (σ : Store)
    (bucket stack folder : String) (listing : List DeliveryRecord) :
    List DeliveryRecord :=
  let _ := provider
  let _ := collection
  (listing.filter (fun r => hasPdrSuffix r.name)).filter
    (fun r => isNew σ bucket stack folder r)

/-- Modelled from the spec: archiving a record at its deterministic
durable-storage key (the `putObject` of the raw record performed by the
orchestrator after a successful parse). -/
def archive (σ : Store) (bucket stack folder name : String) : Store :=
  (bucket, pdrKey stack folder name) :: σ

/-! ## Record Parser

Modelled from the spec: the Record Parser implementation is not in the tree.
Spec 4.4: the format is line/group-oriented; the parser recognizes group
boundaries, extracts per-group granule identifiers using a configurable
extraction pattern, and collects per-file entries within each group.  A
malformed group is recorded as an error entry; the overall parse fails only
on unrecoverable document-level structure (unterminated group, unknown
top-level keyword).  Numeric fields are parsed as exact integers; absence of
an expected field is a structural error.
-/

/-- One line of a delivery record: a `keyword = value` assignment, a group
opening marker, or a group closing marker. -/
inductive Item where
  | assign (keyword value : String)
  | groupOpen
  | groupClose
  deriving DecidableEq, Repr

/-- A single file named inside a record. -/
structure FileReference where
  path : String
  size : Nat
  deriving DecidableEq, Repr

/-- One logical science-data unit within a record. -/
structure GranuleGroup where
  granuleId : String
  files : List FileReference
  deriving DecidableEq, Repr

/-- Unrecoverable document-level malformation (spec error taxonomy:
StructuralParseError). -/
inductive StructuralParseError where
  | unknownKeyword (k : String)
  | unterminatedGroup
  | unexpectedGroupClose
  | nestedGroup
  | missingField (k : String)
  | malformedInteger (k v : String)
  deriving DecidableEq, Repr

instance instDecEqExcept {ε α : Type} [DecidableEq ε] [DecidableEq α] :
    DecidableEq (Except ε α) := fun x y =>
  match x, y with
  | .ok a, .ok b =>
    if h : a = b then .isTrue (by rw [h]) else .isFalse (by intro hc; cases hc; exact h rfl)
  | .ok _, .error _ => .isFalse (by intro hc; cases hc)
  | .error _, .ok _ => .isFalse (by intro hc; cases hc)
  | .error e, .error f =>
    if h : e = f then .isTrue (by rw [h]) else .isFalse (by intro hc; cases hc; exact h rfl)

/-- Output of parsing a delivery record.  Each group entry is either a
parsed `GranuleGroup` or a recorded group-level error. -/
structure ParsedRecord where
  granuleCount : Nat
  fileCount : Nat
  groups : List (Except String GranuleGroup)
  deriving DecidableEq, Repr

/-- Exact (strict) parsing of a natural number: all characters must be
digits and the string must be nonempty; there is no silent default. -/
def parseNatStrict (s : String) : Option Nat :=
  if s.isEmpty then none
  else if s.toList.all Char.isDigit then
    some (s.toList.foldl (fun n c => n * 10 + (c.toNat - 48)) 0)
  else none

/-- Find the value of the first assignment of `k` in a list of
keyword-value pairs. -/
def lookupKeyword (k : String) : List (String × String) → Option String
  | [] => none
  | (k2, v) :: rest => if k2 = k then some v else lookupKeyword k rest

/-- Top-level keywords the parser understands; any other keyword at top
level is a document-level error. -/
def knownTopLevel (k : String) : Bool :=
  k = "TOTAL_GRANULES" || k = "TOTAL_FILE_COUNT"

/-- Single pass over the document lines.  The second argument is the state:
`none` while at top level, `some g` while inside a group whose assignments
collected so far are `g` (in order).  Fails exactly on document-level
malformation: an unknown top-level keyword, an unterminated group, a group
closing marker outside a group, or a nested group opening. -/
def splitGroupsGo : List Item → Option (List (String × String)) →
    Except StructuralParseError (List (String × String) × List (List (String × String)))
  | [], none => .ok ([], [])
  | [], some _ => .error .unterminatedGroup
  | .assign k v :: rest, none =>
    if knownTopLevel k then
      match splitGroupsGo rest none with
      | .error e => .error e
      | .ok (tops, gs) => .ok ((k, v) :: tops, gs)
    else .error (.unknownKeyword k)
  | .assign k v :: rest, some g => splitGroupsGo rest (some (g ++ [(k, v)]))
  | .groupOpen :: rest, none => splitGroupsGo rest (some [])
  | .groupOpen :: _, some _ => .error .nestedGroup
  | .groupClose :: _, none => .error .unexpectedGroupClose
  | .groupClose :: rest, some g =>
    match splitGroupsGo rest none with
    | .error e => .error e
    | .ok (tops, gs) => .ok (tops, g :: gs)

/-- Split a document into its top-level assignments and the contents of its
groups, in order. -/
def splitGroups (doc : List Item) :
    Except StructuralParseError (List (String × String) × List (List (String × String))) :=
  splitGroupsGo doc none

/-- Collect the file entries of a group: each file is a `FILE_NAME` line
immediately followed by a `FILE_SIZE` line whose value must be an exact
integer; other keywords are skipped. -/
def parseFiles : List (String × String) → Except String (List FileReference)
  | [] => .ok []
  | (k, v) :: rest =>
    if k = "FILE_NAME" then
      match rest with
      | [] => .error ("missing FILE_SIZE for file " ++ v)
      | (k2, sv) :: rest2 =>
        if k2 = "FILE_SIZE" then
          match parseNatStrict sv with
          | some n =>
            match parseFiles rest2 with
            | .error e => .error e
            | .ok fs => .ok (⟨v, n⟩ :: fs)
          | none => .error ("FILE_SIZE is not an integer: " ++ sv)
        else .error ("missing FILE_SIZE for file " ++ v)
    else parseFiles rest

/-- Parse one group's assignments into a `GranuleGroup`: the granule
identifier is extracted from the `GRANULE_ID` value by the configurable
extraction pattern `extractId`; `FILE_COUNT` must be an exact integer and
must match the number of file entries.  Any failure here is a group-level
error. -/
def parseGroup (extractId : String → Option String) (g : List (String × String)) :
    Except String GranuleGroup :=
  match lookupKeyword "GRANULE_ID" g with
  | none => .error "missing GRANULE_ID"
  | some raw =>
    match extractId raw with
    | none => .error ("granule id pattern did not match: " ++ raw)
    | some gid =>
      match lookupKeyword "FILE_COUNT" g with
      | none => .error "missing FILE_COUNT"
      | some fcs =>
        match parseNatStrict fcs with
        | none => .error ("FILE_COUNT is not an integer: " ++ fcs)
        | some fc =>
          match parseFiles g with
          | .error e => .error e
          | .ok fs =>
            if fs.length = fc then .ok ⟨gid, fs⟩
            else .error "FILE_COUNT does not match the number of file entries"

/-- Modelled from the spec: `parse()` — split the document, read the
declared totals (absence or a malformed integer is a structural error), and
parse each group, recording a failed group as an error entry rather than
raising. -/
def parse (extractId : String → Option String) (doc : List Item) :
    Except StructuralParseError ParsedRecord :=
  match splitGroups doc with
  | .error e => .error e
  | .ok (tops, gs) =>
    match lookupKeyword "TOTAL_GRANULES" tops with
    | none => .error (.missingField "TOTAL_GRANULES")
    | some tgv =>
      match parseNatStrict tgv with
      | none => .error (.malformedInteger "TOTAL_GRANULES" tgv)
      | some tg =>
        match lookupKeyword "TOTAL_FILE_COUNT" tops with
        | none => .error (.missingField "TOTAL_FILE_COUNT")
        | some tfv =>
          match parseNatStrict tfv with
          | none => .error (.malformedInteger "TOTAL_FILE_COUNT" tfv)
          | some tf =>
            .ok ⟨tg, tf, gs.map (parseGroup extractId)⟩

/-! ## Parse/Ingest Orchestrator -/

/-- A per-record ingest failure, tagged with the record's name. -/
inductive IngestError where
  | downloadFailed (recordName : String) (e : String)
  | parseFailed (recordName : String) (e : StructuralParseError)
  deriving DecidableEq, Repr

/-- Modelled from the spec: `ingest(record)` — download the record, parse
it, and only if parsing succeeds upload the raw record to durable storage
under the key (stack, folder, name).  If parsing fails, the raw record is
not archived and the failure carries the record's name.  The second
component is the trace of store operations performed. -/
def ingest (extractId : String → Option String) (bucket stack folder : String)
    (r : DeliveryRecord) (downloadResult : Except String (List Item)) :
    Except IngestError ParsedRecord × List StoreOp :=
  match downloadResult with
  | .error e => (.error (.downloadFailed r.name e), [])
  | .ok doc =>
    match parse extractId doc with
    | .error e => (.error (.parseFailed r.name e), [])
    | .ok parsed => (.ok parsed, [.put bucket (pdrKey stack folder r.name)])

/-! ## Protocol selector -/

/-- The two kinds of handler the selector can be asked for. -/
inductive SelectionType where
  | discover
  | parse
  deriving DecidableEq, Repr

/-- The constructors the selector can return, one per supported
(type, protocol) pair. -/
inductive ProviderConstructor where
  | ftpDiscover
  | sftpDiscover
  | httpDiscover
  | ftpParse
  | sftpParse
  | httpParse
  deriving DecidableEq, Repr

/-- Modelled from the spec: `selector(type, protocol)` — a pure function of
the declared protocol string; a supported pair yields a constructor, an
unsupported protocol string fails with an unsupported-protocol error at
selection time (no connection or other effect is modelled: the function is
total and pure). -/
def selector (t : SelectionType) (protocol : String) : Except String ProviderConstructor :=
  match t with
  | .discover =>
    if protocol = "ftp" then .ok .ftpDiscover
    else if protocol = "sftp" then .ok .sftpDiscover
    else if protocol = "http" then .ok .httpDiscover
    else .error ("Protocol " ++ protocol ++ " is not supported")
  | .parse =>
    if protocol = "ftp" then .ok .ftpParse
    else if protocol = "sftp" then .ok .sftpParse
    else if protocol = "http" then .ok .httpParse
    else .error ("Protocol " ++ protocol ++ " is not supported")

/-! ## Batch orchestration -/

/-- Modelled from the spec: batch-level orchestration over the discovered
records.  Each record is attempted with the per-record pipeline `step`
(which may fail and may update the store); the outcome of every record is
collected, and a failure of one record never prevents the remaining records
from being attempted. -/
def runBatch (step : Store → DeliveryRecord → Except String (ParsedRecord × Store)) :
    Store → List DeliveryRecord → List (String × Except String ParsedRecord) × Store
  | σ, [] => ([], σ)
  | σ, r :: rest =>
    match step σ r with
    | .ok (a, σ2) =>
      let out := runBatch step σ2 rest
      ((r.name, .ok a) :: out.1, out.2)
    | .error e =>
      let out := runBatch step σ rest
      ((r.name, .error e) :: out.1, out.2)

/-! ## Connection pool -/

/-- Phase of one record pipeline task with respect to the provider
connection pool. -/
inductive TaskPhase where
  | idle
  | waiting
  | connected
  | done
  deriving DecidableEq, Repr

/-- Number of provider connections currently open: the number of tasks
holding a connection. -/
def connCount (ts : List TaskPhase) : Nat :=
  ts.countP (fun p => p = TaskPhase.connected)

/-- Modelled from the spec: one interleaving step of the concurrent record
pipelines sharing the per-provider connection pool.  A task may start
wanting a connection at any time; it may acquire one only when the number
of open connections is below `limit` (the provider's
globalConnectionLimit); it releases its connection when it finishes. -/
inductive PoolStep (limit : Nat) : List TaskPhase → List TaskPhase → Prop
  | start (pre post : List TaskPhase) :
      PoolStep limit (pre ++ .idle :: post) (pre ++ .waiting :: post)
  | acquire (pre post : List TaskPhase) :
      connCount (pre ++ .waiting :: post) < limit →
      PoolStep limit (pre ++ .waiting :: post) (pre ++ .connected :: post)
  | release (pre post : List TaskPhase) :
      PoolStep limit (pre ++ .connected :: post) (pre ++ .done :: post)

/-! ## `cw-sf-event-to-db-records` Lambda
(from `packages/api/lambdas/cw-sf-event-to-db-records.js`)

The external collaborators (the Dynamo-backed models, `JSON.parse`, and
`getCumulusMessageFromExecutionEvent`) are parameters; the try/catch
structure of the three save functions and the `Promise.all` structure of
the handler are embedded from the source.
-/

/-- A Cumulus message, reduced to the one attribute the lambda reads from
it (`getMessageExecutionArn`). -/
structure CumulusMessage where
  executionArn : String
  deriving DecidableEq, Repr

/-- A Step Function execution event as decoded from an SQS message body. -/
structure ExecutionEvent where
  raw : String
  deriving DecidableEq, Repr

/-- An SQS message as the handler sees it: the body may be under `Body` or
`body`. -/
structure SqsMessage where
  Body : Option String
  body : Option String
  deriving DecidableEq, Repr

/-- An SQS event: a list of records. -/
structure SqsEvent where
  Records : List SqsMessage
  deriving DecidableEq, Repr

/-- The body the handler decodes:
`get(message, 'Body', get(message, 'body', '\x7b\x7d'))`. -/
def messageBody (m : SqsMessage) : String :=
  m.Body.getD (m.body.getD "\x7b\x7d")

/-- `saveExecutionToDb` from the source: the model's store call is wrapped
in try/catch; on error a fatal line is logged and the function still
resolves.  The returned list is the fatal log lines (empty on success); the
total return type records that the promise never rejects. -/
def saveExecutionToDb (storeExecution : CumulusMessage → Except String Unit)
    (m : CumulusMessage) : List String :=
  match storeExecution m with
  | .ok _ => []
  | .error e =>
    ["Failed to create/update database record for execution " ++ m.executionArn ++ ": " ++ e]

/-- `savePdrToDb` from the source: same try/catch shape as
`saveExecutionToDb`. -/
def savePdrToDb (storePdrs : CumulusMessage → Except String Unit)
    (m : CumulusMessage) : List String :=
  match storePdrs m with
  | .ok _ => []
  | .error e =>
    ["Failed to create/update PDR database record for execution " ++ m.executionArn ++ ": " ++ e]

/-- `saveGranulesToDb` from the source: same try/catch shape as
`saveExecutionToDb`. -/
def saveGranulesToDb (storeGranules : CumulusMessage → Except String Unit)
    (m : CumulusMessage) : List String :=
  match storeGranules m with
  | .ok _ => []
  | .error e =>
    ["Failed to create/update granule records for execution " ++ m.executionArn ++ ": " ++ e]

/-- `Promise.all` over a mapped list: resolves to the list of results in
order, rejects with the first rejection. -/
def promiseAll {α β : Type} (f : α → Except String β) : List α → Except String (List β)
  | [] => .ok []
  | x :: xs =>
    match f x with
    | .error e => .error e
    | .ok b =>
      match promiseAll f xs with
      | .error e => .error e
      | .ok bs => .ok (b :: bs)

/-- The per-message work of the handler: decode the body, build the Cumulus
message, then run the three saves (their inner `Promise.all` always
resolves since each save catches its own errors); the fatal log lines of
the three saves are collected. -/
def handleMessage (jsonParse : String → Except String ExecutionEvent)
    (getCumulusMessageFromExecutionEvent : ExecutionEvent → Except String CumulusMessage)
    (storeExecution storeGranules storePdrs : CumulusMessage → Except String Unit)
    (message : SqsMessage) : Except String (List String) :=
  match jsonParse (messageBody message) with
  | .error e => .error e
  | .ok executionEvent =>
    match getCumulusMessageFromExecutionEvent executionEvent with
    | .error e => .error e
    | .ok cumulusMessage =>
      .ok (saveExecutionToDb storeExecution cumulusMessage ++
           saveGranulesToDb storeGranules cumulusMessage ++
           savePdrToDb storePdrs cumulusMessage)

/-- `handler` from the source: `Promise.all` over the SQS messages of the
per-message work. -/
def handler (jsonParse : String → Except String ExecutionEvent)
    (getCumulusMessageFromExecutionEvent : ExecutionEvent → Except String CumulusMessage)
    (storeExecution storeGranules storePdrs : CumulusMessage → Except String Unit)
    (event : SqsEvent) : Except String (List (List String)) :=
  promiseAll
    (handleMessage jsonParse getCumulusMessageFromExecutionEvent
      storeExecution storeGranules storePdrs)
    event.Records

/-! ## `listS3ObjectsV2` (from `packages/common/aws.js`, lines 568-588)

The S3 service is a function from an optional continuation token to a
listing response.  The while loop of the source is embedded with explicit
fuel; `none` means the loop did not finish within the given fuel.
-/

/-- A response of the S3 `listObjectsV2` call, reduced to the fields the
function reads. -/
structure S3ListResponse where
  Contents : List String
  IsTruncated : Bool
  NextContinuationToken : Option Nat
  deriving DecidableEq, Repr

/-- The while loop of `listS3ObjectsV2`: keep fetching pages with the
continuation token while `IsTruncated`, concatenating the `Contents`
arrays in order. -/
def listS3ObjectsV2Loop (svc : Option Nat → S3ListResponse) :
    Nat → S3ListResponse → Option (List String)
  | fuel, resp =>
    if resp.IsTruncated then
      match fuel with
      | 0 => none
      | fuel2 + 1 =>
        match listS3ObjectsV2Loop svc fuel2 (svc resp.NextContinuationToken) with
        | none => none
        | some more => some (resp.Contents ++ more)
    else some resp.Contents

/-- `listS3ObjectsV2` from the source: fetch the first page (no token),
then loop while truncated. -/
def listS3ObjectsV2 (svc : Option Nat → S3ListResponse) (fuel : Nat) :
    Option (List String) :=
  listS3ObjectsV2Loop svc fuel (svc none)

/-- The response the store gives for page `i` of a paged listing backed by
`pages`: its contents, truncation exactly when a further page exists, and
the next continuation token. -/
def pageResponse (pages : List (List String)) (i : Nat) : S3ListResponse :=
  ⟨pages.getD i [], decide (i + 1 < pages.length), some (i + 1)⟩

/-- A store holding `pages` of objects: the call without a token returns
page 0, the call with token `i` returns page `i`. -/
def pagedService (pages : List (List String)) : Option Nat → S3ListResponse
  | none => pageResponse pages 0
  | some i => pageResponse pages i

/-! ## Sample data used by the concrete witnesses -/

/-- Identity extraction pattern used by the sample documents. -/
def sampleExtractId : String → Option String := fun s => some s

/-- A well-formed sample group with one file. -/
def sampleGroup (gid fname fsize : String) : List (String × String) :=
  [("GRANULE_ID", gid), ("FILE_COUNT", "1"), ("FILE_NAME", fname), ("FILE_SIZE", fsize)]

/-- A malformed sample group: its FILE_COUNT value is not an integer. -/
def sampleBadGroup : List (String × String) :=
  [("GRANULE_ID", "GBAD"), ("FILE_COUNT", "two")]

/-- The document lines of one group. -/
def groupItems (g : List (String × String)) : List Item :=
  Item.groupOpen :: (g.map (fun p => Item.assign p.1 p.2) ++ [Item.groupClose])

/-- A sample document with the given declared totals and groups. -/
def buildDoc (tgv tfv : String) (gs : List (List (String × String))) : List Item :=
  Item.assign "TOTAL_GRANULES" tgv :: Item.assign "TOTAL_FILE_COUNT" tfv ::
    (gs.map groupItems).flatten

/-- Five groups, the third malformed (the spec's one-in-five example). -/
def sampleGroupsC2 : List (List (String × String)) :=
  [sampleGroup "G1" "f1" "10", sampleGroup "G2" "f2" "20", sampleBadGroup,
   sampleGroup "G4" "f4" "40", sampleGroup "G5" "f5" "50"]

/-- The one-malformed-group sample document. -/
def sampleDocC2 : List Item := buildDoc "5" "5" sampleGroupsC2

/-- Two well-formed groups. -/
def sampleGroupsC4 : List (List (String × String)) :=
  [sampleGroup "G1" "f1" "10", sampleGroup "G2" "f2" "20"]

/-- The all-well-formed sample document. -/
def sampleDocC4 : List Item := buildDoc "2" "2" sampleGroupsC4

/-! # Theorems -/

/-! ## Helper lemmas -/

theorem countP_isOk_map {α ε β : Type} (f : α → Except ε β) (l : List α) :
    (l.map f).countP (fun e => e.isOk) + (l.map f).countP (fun e => !e.isOk)
      = l.length := by
  induction l with
  | nil => rfl
  | cons a l ih =>
    simp only [List.map_cons, List.countP_cons, List.length_cons]
    cases h : (f a).isOk <;> simp [h, -List.countP_map] <;> omega

theorem parse_of_split (extractId : String → Option String) (doc : List Item)
    (tops : List (String × String)) (gs : List (List (String × String)))
    (tgs tfs : String) (tg tf : Nat)
    (hsplit : splitGroups doc = .ok (tops, gs))
    (htg : lookupKeyword "TOTAL_GRANULES" tops = some tgs)
    (htgn : parseNatStrict tgs = some tg)
    (htf : lookupKeyword "TOTAL_FILE_COUNT" tops = some tfs)
    (htfn : parseNatStrict tfs = some tf) :
    parse extractId doc = .ok ⟨tg, tf, gs.map (parseGroup extractId)⟩ := by
  simp [parse, hsplit, htg, htgn, htf, htfn]

/-! ## C1 -/

/-- C1: once a record has been archived at its deterministic durable-storage
key `{stack}/{folder}/{name}`, a subsequent `discover()` run never returns a
record with that name again: the Dedup Filter's existence check rejects it.
The statement quantifies over provider and collection, which do not enter
the dedup key. -/
theorem archived_record_never_rediscovered
    (provider collection : String) (σ : Store) (bucket stack folder name : String)
    (listing : List DeliveryRecord) (r : DeliveryRecord)
    (hmem : r ∈ discover provider collection (archive σ bucket stack folder name)
      bucket stack folder listing) :
    r.name ≠ name := by
  intro heq
  simp only [discover] at hmem
  have h1 : isNew (archive σ bucket stack folder name) bucket stack folder r = true :=
    (List.mem_filter.mp hmem).2
  simp [isNew, s3ObjectExistsOn, s3ObjectExists, headObject, archive, heq] at h1

/-- Witness for C1: with the store holding the archived record
`done.PDR`, a discover run still returns the unrelated `other.PDR`,
whose name therefore differs from the archived one. -/
theorem archived_record_never_rediscovered_witness :
    (⟨"other.PDR", "remote"⟩ : DeliveryRecord).name ≠ "done.PDR" :=
  archived_record_never_rediscovered "prov" "coll" [] "bkt" "stk" "pdrs" "done.PDR"
    [⟨"other.PDR", "remote"⟩] ⟨"other.PDR", "remote"⟩ (by decide)

/-! ## C6 -/

/-- C6: `s3ObjectExists` resolves to `false` exactly when the head request
fails with `NotFound`, resolves to `true` when the head request succeeds,
propagates every other storage failure unchanged, and performs no writes to
the store (its operation trace is a single head request, which leaves the
store unchanged). -/
theorem s3ObjectExists_spec (head : Except S3Error Unit) :
    (s3ObjectExists head = .ok false ↔ head = .error ⟨"NotFound"⟩) ∧
    (∀ u : Unit, head = .ok u → s3ObjectExists head = .ok true) ∧
    (∀ e : S3Error, head = .error e → e.code ≠ "NotFound" → s3ObjectExists head = .error e) ∧
    (∀ (σ : Store) (bucket key : String),
      applyOps σ (s3ObjectExistsOn σ bucket key).2 = σ ∧
      ∀ op ∈ (s3ObjectExistsOn σ bucket key).2, ∀ b k, op ≠ StoreOp.put b k) := by
  refine ⟨?_, ?_, ?_, ?_⟩
  · cases head with
    | ok u => simp [s3ObjectExists]
    | error e =>
      cases e with
      | mk c =>
        by_cases hc : c = "NotFound"
        · subst hc; simp [s3ObjectExists]
        · simp [s3ObjectExists, hc]
  · intro u hu; rw [hu]; rfl
  · intro e he hne; rw [he]; simp [s3ObjectExists, hne]
  · intro σ bucket key
    refine ⟨rfl, ?_⟩
    intro op hop b k
    simp [s3ObjectExistsOn] at hop
    subst hop
    simp

/-- Witness for C6 at concrete inputs: a NotFound failure yields `false`, a
successful head yields `true`, and an AccessDenied failure is propagated. -/
theorem s3ObjectExists_spec_witness :
    s3ObjectExists (.error ⟨"NotFound"⟩) = .ok false ∧
    s3ObjectExists (.ok ()) = .ok true ∧
    s3ObjectExists (.error ⟨"AccessDenied"⟩) = .error ⟨"AccessDenied"⟩ :=
  ⟨(s3ObjectExists_spec (.error ⟨"NotFound"⟩)).1.mpr rfl,
   (s3ObjectExists_spec (.ok ())).2.1 () rfl,
   (s3ObjectExists_spec (.error ⟨"AccessDenied"⟩)).2.2.1 ⟨"AccessDenied"⟩ rfl (by decide)⟩

/-! ## C2 -/

/-- C2: a document whose document-level structure and declared totals are
wellformed always parses to a `ParsedRecord` (group failures are recorded,
never raised), and when exactly one of its groups is malformed the record
has exactly one group-level error entry and all remaining groups
successful.  The final conjunct states that for any document with sound
structure and totals, `parse` never raises regardless of group contents. -/
theorem parse_isolates_single_malformed_group
    (extractId : String → Option String) (doc : List Item)
    (tops : List (String × String)) (gs : List (List (String × String)))
    (tgs tfs : String) (tg tf : Nat)
    (hsplit : splitGroups doc = .ok (tops, gs))
    (htg : lookupKeyword "TOTAL_GRANULES" tops = some tgs)
    (htgn : parseNatStrict tgs = some tg)
    (htf : lookupKeyword "TOTAL_FILE_COUNT" tops = some tfs)
    (htfn : parseNatStrict tfs = some tf)
    (hbad : gs.countP (fun g => !(parseGroup extractId g).isOk) = 1) :
    (∃ r : ParsedRecord, parse extractId doc = .ok r ∧
      r.groups.length = gs.length ∧
      r.groups.countP (fun entry => !entry.isOk) = 1 ∧
      r.groups.countP (fun entry => entry.isOk) = gs.length - 1) ∧
    (∀ (doc2 : List Item) (tops2 : List (String × String))
        (gs2 : List (List (String × String))) (tgs2 tfs2 : String) (tg2 tf2 : Nat),
      splitGroups doc2 = .ok (tops2, gs2) →
      lookupKeyword "TOTAL_GRANULES" tops2 = some tgs2 →
      parseNatStrict tgs2 = some tg2 →
      lookupKeyword "TOTAL_FILE_COUNT" tops2 = some tfs2 →
      parseNatStrict tfs2 = some tf2 →
      ∃ r2 : ParsedRecord, parse extractId doc2 = .ok r2) := by
  constructor
  · refine ⟨⟨tg, tf, gs.map (parseGroup extractId)⟩,
      parse_of_split extractId doc tops gs tgs tfs tg tf hsplit htg htgn htf htfn,
      by simp, ?_, ?_⟩
    · show (gs.map (parseGroup extractId)).countP (fun entry => !entry.isOk) = 1
      rw [List.countP_map]
      exact hbad
    · show (gs.map (parseGroup extractId)).countP (fun entry => entry.isOk)
        = gs.length - 1
      have hc1 : (gs.map (parseGroup extractId)).countP (fun entry => !entry.isOk)
          = 1 := by
        rw [List.countP_map]; exact hbad
      have hc2 := countP_isOk_map (parseGroup extractId) gs
      omega
  · intro doc2 tops2 gs2 tgs2 tfs2 tg2 tf2 hs2 h1 h2 h3 h4
    exact ⟨⟨tg2, tf2, gs2.map (parseGroup extractId)⟩,
      parse_of_split extractId doc2 tops2 gs2 tgs2 tfs2 tg2 tf2 hs2 h1 h2 h3 h4⟩

/-- Witness for C2: the five-group sample document with one malformed group
parses to a record with five entries, one recorded error and four
successes. -/
theorem parse_isolates_single_malformed_group_witness :
    ∃ r : ParsedRecord, parse sampleExtractId sampleDocC2 = .ok r ∧
      r.groups.length = 5 ∧
      r.groups.countP (fun entry => !entry.isOk) = 1 ∧
      r.groups.countP (fun entry => entry.isOk) = 4 :=
  (parse_isolates_single_malformed_group sampleExtractId sampleDocC2
    [("TOTAL_GRANULES", "5"), ("TOTAL_FILE_COUNT", "5")] sampleGroupsC2
    "5" "5" 5 5 (by decide) (by decide) (by decide) (by decide) (by decide)
    (by decide)).1

/-! ## C3 -/

/-- C3: when parsing fails, `ingest` performs no durable-store upload (its
operation trace is empty, so the store is unchanged and the record's dedup
key is never created: `isNew` answers for the record exactly as before),
and the resulting failure is tagged with the record's name. -/
theorem ingest_parse_failure_not_archived
    (extractId : String → Option String) (bucket stack folder : String)
    (r : DeliveryRecord) (doc : List Item) (e : StructuralParseError)
    (hparse : parse extractId doc = .error e) :
    ingest extractId bucket stack folder r (.ok doc)
        = (.error (.parseFailed r.name e), []) ∧
    (∀ σ : Store,
      applyOps σ (ingest extractId bucket stack folder r (.ok doc)).2 = σ) ∧
    (∀ σ : Store,
      isNew (applyOps σ (ingest extractId bucket stack folder r (.ok doc)).2)
          bucket stack folder r
        = isNew σ bucket stack folder r) := by
  have h : ingest extractId bucket stack folder r (.ok doc)
      = (.error (.parseFailed r.name e), []) := by
    simp [ingest, hparse]
  exact ⟨h, fun σ => by simp [h, applyOps], fun σ => by simp [h, applyOps]⟩

/-- Witness for C3: a record whose document has an unknown top-level
keyword fails with the record's name attached and produces no store
operation. -/
theorem ingest_parse_failure_not_archived_witness :
    ingest sampleExtractId "bkt" "stk" "pdrs" ⟨"x.PDR", "p"⟩
        (.ok [Item.assign "BOGUS" "1"])
      = (.error (.parseFailed "x.PDR" (.unknownKeyword "BOGUS")), []) :=
  (ingest_parse_failure_not_archived sampleExtractId "bkt" "stk" "pdrs"
    ⟨"x.PDR", "p"⟩ [Item.assign "BOGUS" "1"] (.unknownKeyword "BOGUS")
    (by decide)).1

/-! ## C4 -/

/-- C4: a document with sound structure, declared totals present and parsed
as exact integers, and every group well-formed, parses to a record with
exactly one `GranuleGroup` entry per group (all successful) and with
granule count and file count equal to the declared totals; a missing
expected total is a structural error, as is a total that is not an exact
integer. -/
theorem parse_wellformed_groups
    (extractId : String → Option String) (doc : List Item)
    (tops : List (String × String)) (gs : List (List (String × String)))
    (tgs tfs : String) (tg tf : Nat)
    (hsplit : splitGroups doc = .ok (tops, gs))
    (htg : lookupKeyword "TOTAL_GRANULES" tops = some tgs)
    (htgn : parseNatStrict tgs = some tg)
    (htf : lookupKeyword "TOTAL_FILE_COUNT" tops = some tfs)
    (htfn : parseNatStrict tfs = some tf)
    (hok : ∀ g ∈ gs, (parseGroup extractId g).isOk = true) :
    (∃ r : ParsedRecord, parse extractId doc = .ok r ∧
      r.granuleCount = tg ∧ r.fileCount = tf ∧
      r.groups.length = gs.length ∧
      (∀ entry ∈ r.groups, entry.isOk = true)) ∧
    (∀ (doc2 : List Item) (tops2 : List (String × String))
        (gs2 : List (List (String × String))),
      splitGroups doc2 = .ok (tops2, gs2) →
      lookupKeyword "TOTAL_GRANULES" tops2 = none →
      parse extractId doc2 = .error (.missingField "TOTAL_GRANULES")) ∧
    (∀ (doc2 : List Item) (tops2 : List (String × String))
        (gs2 : List (List (String × String))) (v : String),
      splitGroups doc2 = .ok (tops2, gs2) →
      lookupKeyword "TOTAL_GRANULES" tops2 = some v →
      parseNatStrict v = none →
      parse extractId doc2 = .error (.malformedInteger "TOTAL_GRANULES" v)) := by
  refine ⟨⟨⟨tg, tf, gs.map (parseGroup extractId)⟩,
    parse_of_split extractId doc tops gs tgs tfs tg tf hsplit htg htgn htf htfn,
    rfl, rfl, by simp, ?_⟩, ?_, ?_⟩
  · intro entry hmem
    rcases List.mem_map.mp hmem with ⟨g, hg, rfl⟩
    exact hok g hg
  · intro doc2 tops2 gs2 hs2 hl2
    simp [parse, hs2, hl2]
  · intro doc2 tops2 gs2 v hs2 hl2 hn2
    simp [parse, hs2, hl2, hn2]

/-- Witness for C4: the two-group sample document parses to two successful
entries with the declared totals. -/
theorem parse_wellformed_groups_witness :
    ∃ r : ParsedRecord, parse sampleExtractId sampleDocC4 = .ok r ∧
      r.granuleCount = 2 ∧ r.fileCount = 2 ∧
      r.groups.length = 2 ∧
      (∀ entry ∈ r.groups, entry.isOk = true) :=
  (parse_wellformed_groups sampleExtractId sampleDocC4
    [("TOTAL_GRANULES", "2"), ("TOTAL_FILE_COUNT", "2")] sampleGroupsC4
    "2" "2" 2 2 (by decide) (by decide) (by decide) (by decide) (by decide)
    (by decide)).1

/-! ## C5 -/

/-- C5: protocol selection is a pure total function of the declared
protocol string: every supported (type, protocol) pair with type in
discover/parse and protocol in ftp/sftp/http yields a constructor, and
every unsupported protocol string fails with an unsupported-protocol error
at selection time (the function performs no other effect). -/
theorem selector_spec :
    (∀ (t : SelectionType) (p : String), p ∈ ["ftp", "sftp", "http"] →
      ∃ c, selector t p = .ok c) ∧
    (∀ (t : SelectionType) (p : String), p ∉ ["ftp", "sftp", "http"] →
      selector t p = .error ("Protocol " ++ p ++ " is not supported")) := by
  constructor
  · intro t p hp
    simp only [List.mem_cons, List.not_mem_nil, or_false] at hp
    rcases hp with h | h | h <;> subst h <;> cases t <;> exact ⟨_, rfl⟩
  · intro t p hp
    simp only [List.mem_cons, List.not_mem_nil, or_false, not_or] at hp
    obtain ⟨h1, h2, h3⟩ := hp
    cases t <;> simp [selector, h1, h2, h3]

/-- Witness for C5: a supported pair yields a constructor and an
unsupported protocol fails with the unsupported-protocol error. -/
theorem selector_spec_witness :
    (∃ c, selector .discover "sftp" = .ok c) ∧
    selector .parse "gopher" = .error ("Protocol " ++ "gopher" ++ " is not supported") :=
  ⟨selector_spec.1 .discover "sftp" (by decide),
   selector_spec.2 .parse "gopher" (by decide)⟩

/-! ## C7 -/

/-- C7: batch orchestration attempts every record: the collected outcome
list has exactly one entry per discovered record, in order, whatever the
per-record outcomes are; in particular a record whose pipeline fails
contributes its error entry and the remaining records are still
processed. -/
theorem runBatch_attempts_every_record
    (step : Store → DeliveryRecord → Except String (ParsedRecord × Store))
    (σ : Store) (records : List DeliveryRecord) :
    ((runBatch step σ records).1).map Prod.fst = records.map DeliveryRecord.name ∧
    (∀ (r : DeliveryRecord) (rest : List DeliveryRecord) (e : String),
      step σ r = .error e →
      (runBatch step σ (r :: rest)).1
        = (r.name, .error e) :: (runBatch step σ rest).1) := by
  constructor
  · induction records generalizing σ with
    | nil => rfl
    | cons r rest ih =>
      cases h : step σ r with
      | ok p =>
        obtain ⟨a, σ2⟩ := p
        simp [runBatch, h, ih]
      | error e => simp [runBatch, h, ih]
  · intro r rest e h
    simp [runBatch, h]

/-- Witness for C7: with a pipeline that always fails, the first record's
error is recorded and the rest of the batch is still processed. -/
theorem runBatch_attempts_every_record_witness :
    (runBatch (fun _ _ => .error "boom") [] [⟨"a.PDR", "p"⟩, ⟨"b.PDR", "q"⟩]).1
      = ("a.PDR", .error "boom")
        :: (runBatch (fun _ _ => .error "boom") [] [⟨"b.PDR", "q"⟩]).1 :=
  (runBatch_attempts_every_record (fun _ _ => .error "boom") [] []).2
    ⟨"a.PDR", "p"⟩ [⟨"b.PDR", "q"⟩] "boom" rfl

/-! ## C8 -/

theorem connCount_middle (pre post : List TaskPhase) (x : TaskPhase) :
    connCount (pre ++ x :: post)
      = connCount pre + connCount post
        + (if x = TaskPhase.connected then 1 else 0) := by
  cases x
  all_goals simp [connCount, List.countP_append, List.countP_cons]
  all_goals omega

theorem connCount_all_idle (ts : List TaskPhase)
    (h : ∀ p ∈ ts, p = TaskPhase.idle) : connCount ts = 0 := by
  rw [connCount, List.countP_eq_zero]
  intro p hp
  rw [h p hp]
  simp

/-- C8: for every interleaving of the concurrent record pipelines sharing a
provider's connection pool (in particular two concurrent discover calls,
whose tasks all start idle), the number of simultaneously open provider
connections never exceeds the provider's globalConnectionLimit. -/
theorem pool_bound (limit : Nat) (ts0 ts : List TaskPhase)
    (hinit : ∀ p ∈ ts0, p = TaskPhase.idle)
    (hreach : Relation.ReflTransGen (PoolStep limit) ts0 ts) :
    connCount ts ≤ limit := by
  induction hreach with
  | refl => rw [connCount_all_idle ts0 hinit]; exact Nat.zero_le limit
  | tail _ hstep ih =>
    cases hstep with
    | start pre post =>
      rw [connCount_middle] at ih ⊢
      simp at ih ⊢
      omega
    | acquire pre post hlt =>
      rw [connCount_middle] at hlt ⊢
      simp at hlt ⊢
      omega
    | release pre post =>
      rw [connCount_middle] at ih ⊢
      simp at ih ⊢
      omega

/-- Witness for C8: two tasks starting idle, after an interleaving in which
both ask for a connection and one acquires it under limit 1, hold at most
one connection. -/
theorem pool_bound_witness :
    connCount [TaskPhase.connected, TaskPhase.waiting] ≤ 1 :=
  pool_bound 1 [.idle, .idle] [.connected, .waiting] (by decide)
    (Relation.ReflTransGen.tail
      (Relation.ReflTransGen.tail
        (Relation.ReflTransGen.tail Relation.ReflTransGen.refl
          (PoolStep.start [] [.idle]))
        (PoolStep.start [.waiting] []))
      (PoolStep.acquire [] [.waiting] (by decide)))

/-! ## C9 -/

theorem promiseAll_ok {α β : Type} (f : α → Except String β) (g : α → β)
    (l : List α) (h : ∀ m ∈ l, f m = .ok (g m)) :
    promiseAll f l = .ok (l.map g) := by
  induction l with
  | nil => rfl
  | cons x xs ih =>
    have hx := h x (List.mem_cons_self x xs)
    simp [promiseAll, hx, ih (fun m hm => h m (List.mem_cons_of_mem x hm))]

/-- C9: the handler resolves for every behaviour of the three database
stores — including stores that always fail — whenever each message body
decodes to a Cumulus message: each save catches its own store errors, so a
storage failure of one record type never rejects the handler and never
prevents the other two saves from contributing their outcome (all three
appear in every message's collected log output). -/
theorem handler_resolves_despite_store_failures
    (jsonParse : String → Except String ExecutionEvent)
    (getCumulusMessageFromExecutionEvent :
      ExecutionEvent → Except String CumulusMessage)
    (storeExecution storeGranules storePdrs : CumulusMessage → Except String Unit)
    (event : SqsEvent)
    (ev : SqsMessage → ExecutionEvent) (cm : SqsMessage → CumulusMessage)
    (hparse : ∀ m ∈ event.Records, jsonParse (messageBody m) = .ok (ev m))
    (hcm : ∀ m ∈ event.Records,
      getCumulusMessageFromExecutionEvent (ev m) = .ok (cm m)) :
    handler jsonParse getCumulusMessageFromExecutionEvent
        storeExecution storeGranules storePdrs event
      = .ok (event.Records.map (fun m =>
          saveExecutionToDb storeExecution (cm m) ++
          saveGranulesToDb storeGranules (cm m) ++
          savePdrToDb storePdrs (cm m))) := by
  rw [handler]
  apply promiseAll_ok
  intro m hm
  simp [handleMessage, hparse m hm, hcm m hm]

/-- Witness for C9: with an execution store that always fails and the other
stores succeeding, the handler still resolves, and the failed save
contributes its fatal log line. -/
theorem handler_resolves_witness :
    handler (fun s => .ok ⟨s⟩) (fun e2 => .ok ⟨e2.raw⟩)
        (fun _ => .error "db down") (fun _ => .ok ()) (fun _ => .ok ())
        ⟨[⟨some "evt1", none⟩]⟩
      = .ok [["Failed to create/update database record for execution evt1: db down"]] :=
  handler_resolves_despite_store_failures (fun s => .ok ⟨s⟩)
    (fun e2 => .ok ⟨e2.raw⟩)
    (fun _ => .error "db down") (fun _ => .ok ()) (fun _ => .ok ())
    ⟨[⟨some "evt1", none⟩]⟩
    (fun m => ⟨messageBody m⟩) (fun m => ⟨messageBody m⟩)
    (fun _ _ => rfl) (fun _ _ => rfl)

/-! ## C10 -/

theorem listLoop_not_truncated (svc : Option Nat → S3ListResponse) (fuel : Nat)
    (resp : S3ListResponse) (h : resp.IsTruncated = false) :
    listS3ObjectsV2Loop svc fuel resp = some resp.Contents := by
  rw [listS3ObjectsV2Loop.eq_def]
  simp [h]

theorem listLoop_succ_truncated (svc : Option Nat → S3ListResponse) (fuel : Nat)
    (resp : S3ListResponse) (h : resp.IsTruncated = true) :
    listS3ObjectsV2Loop svc (fuel + 1) resp
      = match listS3ObjectsV2Loop svc fuel (svc resp.NextContinuationToken) with
        | none => none
        | some more => some (resp.Contents ++ more) := by
  rw [listS3ObjectsV2Loop.eq_def]
  simp [h]

theorem listLoop_paged (pages : List (List String)) :
    ∀ (fuel i : Nat), i < pages.length → pages.length - i ≤ fuel + 1 →
      listS3ObjectsV2Loop (pagedService pages) fuel (pageResponse pages i)
        = some (pages.drop i).flatten := by
  intro fuel
  induction fuel with
  | zero =>
    intro i hi hf
    have hlast : ¬(i + 1 < pages.length) := by omega
    have hC : (pageResponse pages i).Contents = pages.get ⟨i, hi⟩ :=
      List.getD_eq_getElem pages [] hi
    have hnil : pages.drop (i + 1) = [] := List.drop_eq_nil_of_le (by omega)
    rw [listLoop_not_truncated _ _ _ (decide_eq_false hlast), hC,
      List.drop_eq_getElem_cons hi, hnil, List.flatten_cons, List.flatten_nil,
      List.append_nil]
    rfl
  | succ fuel2 ih =>
    intro i hi hf
    by_cases ht : i + 1 < pages.length
    · have hrec : listS3ObjectsV2Loop (pagedService pages) fuel2
          (pageResponse pages (i + 1)) = some (pages.drop (i + 1)).flatten :=
        ih (i + 1) ht (by omega)
      have hC : (pageResponse pages i).Contents = pages.get ⟨i, hi⟩ :=
        List.getD_eq_getElem pages [] hi
      have hsvc : pagedService pages (pageResponse pages i).NextContinuationToken
          = pageResponse pages (i + 1) := rfl
      rw [listLoop_succ_truncated _ _ _ (decide_eq_true ht), hsvc, hrec, hC,
        List.drop_eq_getElem_cons hi, List.flatten_cons]
      rfl
    · have hC : (pageResponse pages i).Contents = pages.get ⟨i, hi⟩ :=
        List.getD_eq_getElem pages [] hi
      have hnil : pages.drop (i + 1) = [] := List.drop_eq_nil_of_le (by omega)
      rw [listLoop_not_truncated _ _ _ (decide_eq_false ht), hC,
        List.drop_eq_getElem_cons hi, hnil, List.flatten_cons, List.flatten_nil,
        List.append_nil]
      rfl

/-- C10: against a store that answers page i of `pages` with truncation
exactly while further pages exist, `listS3ObjectsV2` returns exactly the
concatenation of the Contents of all pages in page order (given fuel for
the number of pages): the listing is complete, never truncated at the
per-call page limit. -/
theorem listS3ObjectsV2_complete (pages : List (List String)) (fuel : Nat)
    (hne : pages ≠ []) (hfuel : pages.length ≤ fuel + 1) :
    listS3ObjectsV2 (pagedService pages) fuel = some pages.flatten := by
  have h0 : 0 < pages.length := List.length_pos.mpr hne
  have h := listLoop_paged pages fuel 0 h0 (by omega)
  rw [listS3ObjectsV2]
  rw [show pagedService pages none = pageResponse pages 0 from rfl, h,
    List.drop_zero]

/-- Witness for C10: a three-page listing is concatenated completely and in
order. -/
theorem listS3ObjectsV2_complete_witness :
    listS3ObjectsV2 (pagedService [["a", "b"], ["c"], ["d", "e"]]) 2
      = some ["a", "b", "c", "d", "e"] :=
  listS3ObjectsV2_complete [["a", "b"], ["c"], ["d", "e"]] 2 (by decide) (by decide)

end Cumulus
